import Mathlib

/-!
Shallow embedding of notion-scholar (src/notion_scholar/main.py) together
with a spec-modelled bibtex reconciler, and proofs of the stated
properties of the command dispatcher and of the merge algorithm.
-/

/-- Configuration record as read by main.py through get_config(): exactly the
fields main.py consults.  Values are kept as the strings the config layer
stores on disk; main.py itself compares the stored save flag against the
string "True" (line 149-150), so boolean true in the store is the string
"True". -/
structure Config where
  database_id : Option String
  bib_file_path : Option String
  save_to_bib_file : Option String
deriving DecidableEq

/-- ConfigError from notion_scholar.config: an error value carrying a
message, raised by the dispatcher when a required field cannot be
resolved. -/
structure ConfigError where
  message : String
deriving DecidableEq

/-- Python helper `fallback(choice_1, choice_2)` from main.py
(lines 136-137 and 166-167): the first argument wins when it is not None. -/
def fallback {α : Type} : Option α → Option α → Option α
  | some v, _ => some v
  | none, c2 => c2

/-- Variant of `fallback` where the second choice is already a plain value,
as in `fallback(save, save_str == 'True')` on line 150 of main.py. -/
def fallbackD {α : Type} : Option α → α → α
  | some v, _ => v
  | none, d => d

/-- Arguments reaching `sanitize_arguments_and_run` (main.py lines 128-134):
each is optional, defaulting to None. -/
structure RunArgs where
  token : Option String
  database_id : Option String
  bib_file_path : Option String
  bib_string : Option String
  save : Option Bool
deriving DecidableEq

/-- The resolved parameters with which `run(...)` is invoked on
main.py lines 151-157.  `run` itself lives in notion_scholar/run.py, outside
the dispatcher; the dispatcher's output is this call record. -/
structure RunCall where
  token : String
  database_id : String
  bib_string : Option String
  bib_file_path : Option String
  save_to_bib_file : Bool
deriving DecidableEq

/-- Embedding of `sanitize_arguments_and_run` (main.py lines 128-157).
`storedToken` is the value of `get_token()`; `config` is `get_config()`.
A raised ConfigError becomes `.error`; reaching the `run(...)` call becomes
`.ok` with the resolved call record. -/
def sanitize_arguments_and_run (storedToken : Option String) (config : Config)
    (args : RunArgs) : Except ConfigError RunCall :=
  match fallback args.token storedToken with
  | none => .error ⟨"The Notion token is not set nor saved."⟩
  | some token =>
    match fallback args.database_id config.database_id with
    | none => .error ⟨"The database_id is not set nor saved."⟩
    | some database_id =>
      let bib_file_path := fallback args.bib_file_path config.bib_file_path
      let save_str := fallbackD config.save_to_bib_file "True"
      let save_to_bib_file := fallbackD args.save (save_str == "True")
      .ok ⟨token, database_id, args.bib_string, bib_file_path, save_to_bib_file⟩

/-- Arguments reaching `sanitize_arguments_and_download`
(main.py lines 160-164): the file path is mandatory there, token and
database id optional. -/
structure DownloadArgs where
  file_path : String
  token : Option String
  database_id : Option String
deriving DecidableEq

/-- Effect record of `write_to_file(content=..., file_path=...)` on
main.py line 183: the single file write the download command performs. -/
structure FileWrite where
  file_path : String
  content : String
deriving DecidableEq

/-- Embedding of `sanitize_arguments_and_download` (main.py lines 160-183).
The remote call `get_bibtex_string_list_from_database(token, database_id)`
is passed in as the function `fetch`; the final `write_to_file` becomes the
returned `FileWrite` record whose content is the fetched list joined by a
blank line, `'\n\n'.join(bibtex_str_list)`. -/
def sanitize_arguments_and_download (storedToken : Option String)
    (config : Config) (fetch : String → String → List String)
    (args : DownloadArgs) : Except ConfigError FileWrite :=
  match fallback args.token storedToken with
  | none => .error ⟨"The Notion token is not set nor saved."⟩
  | some token =>
    match fallback args.database_id config.database_id with
    | none => .error ⟨"The database_id is not set nor saved."⟩
    | some database_id =>
      let bibtex_str_list := fetch token database_id
      .ok ⟨args.file_path, String.intercalate "\n\n" bibtex_str_list⟩

/-- Substring test used to state that an error message names a field. -/
def strContains (haystack needle : String) : Bool :=
  (List.range (haystack.toList.length + 1)).any
    (fun i => needle.toList.isPrefixOf (haystack.toList.drop i))

/-- Command-line arguments of the `run` subcommand as the argparse layer
sees them (main.py lines 36-65); the run subparser has no save flag. -/
structure RunCliArgs where
  token : Option String
  database_id : Option String
  bib_file_path : Option String
  bib_string : Option String
deriving DecidableEq

/-- Embedding of the argparse validation of the `run` subparser
(main.py lines 36-65): `--token` is required when no token is stored
(line 43); when the config has no bib file path, `-f` and `-s` form a
required mutually exclusive group (lines 52-53), so exactly one of the two
must be supplied; otherwise they are an ordinary group with no
constraint (line 55). -/
def runParserAccepts (storedToken : Option String) (config : Config)
    (args : RunCliArgs) : Bool :=
  (storedToken.isSome || args.token.isSome) &&
    (match config.bib_file_path with
     | none => args.bib_file_path.isSome != args.bib_string.isSome
     | some _ => true)

/-- Command-line arguments of the `download` subcommand
(main.py lines 105-124); the file path may be omitted on the command
line, which argparse then rejects. -/
structure DownloadCliArgs where
  file_path : Option String
  token : Option String
  database_id : Option String
deriving DecidableEq

/-- Embedding of the argparse validation of the `download` subparser
(main.py lines 105-124): the file-path flag `-f` carries `required=True`
unconditionally (line 112), and `--token` is required when no token is
stored (line 117). -/
def downloadParserAccepts (storedToken : Option String)
    (args : DownloadCliArgs) : Bool :=
  args.file_path.isSome && (storedToken.isSome || args.token.isSome)

/-- Outcome of one CLI invocation: argparse rejection (usage error, exit
before any command code runs), a ConfigError raised by the dispatcher, or
the command's effect. -/
inductive CliOutcome (α : Type) where
  | usage : CliOutcome α
  | configErr : ConfigError → CliOutcome α
  | ok : α → CliOutcome α
deriving DecidableEq

/-- Embedding of `main()` restricted to the `run` mode (main.py
lines 186-198): argparse validation first; only an accepted argument set
reaches `sanitize_arguments_and_run`, hence the eventual `run(...)` call
that performs network I/O.  The run subparser passes no save flag. -/
def mainRunMode (storedToken : Option String) (config : Config)
    (args : RunCliArgs) : CliOutcome RunCall :=
  if runParserAccepts storedToken config args then
    match sanitize_arguments_and_run storedToken config
        ⟨args.token, args.database_id, args.bib_file_path,
          args.bib_string, none⟩ with
    | .error e => .configErr e
    | .ok call => .ok call
  else .usage

/-- Embedding of `main()` restricted to the `download` mode (main.py
lines 186-192 and 205-206): argparse validation first; only an accepted
argument set reaches `sanitize_arguments_and_download`, hence the remote
fetch and the file write. -/
def mainDownloadMode (storedToken : Option String) (config : Config)
    (fetch : String → String → List String) (args : DownloadCliArgs) :
    CliOutcome FileWrite :=
  if downloadParserAccepts storedToken args then
    match args.file_path with
    | none => .usage
    | some fp =>
      match sanitize_arguments_and_download storedToken config fetch
          ⟨fp, args.token, args.database_id⟩ with
      | .error e => .configErr e
      | .ok w => .ok w
  else .usage

/-- Modelled from the spec: a parsed bibtex entry of the Bibtex Reconciler
(notion_scholar/run.py, not under src): "a record with a unique citation
key and an opaque body". -/
structure BibtexEntry where
  key : String
  body : String
deriving DecidableEq

/-- Key membership in an entry list. -/
def containsKey (entries : List BibtexEntry) (k : String) : Bool :=
  entries.any (fun e => e.key == k)

/-- First entry carrying the given key, matching the ordered-mapping view
in which the first occurrence of a key wins. -/
def lookupKey (entries : List BibtexEntry) (k : String) : Option BibtexEntry :=
  entries.find? (fun e => e.key == k)

/-- Modelled from the spec: the parse step of the Reconciler builds "an
ordered mapping of citation-key → entry block (first occurrence wins if the
source file itself has duplicates)". -/
def dedupByKey : List BibtexEntry → List BibtexEntry
  | [] => []
  | e :: rest => e :: dedupByKey (rest.filter (fun x => !(x.key == e.key)))
termination_by l => l.length
decreasing_by
  simp only [List.length_cons]
  exact Nat.lt_succ_of_le (List.length_filter_le _ _)

/-- Modelled from the spec: the Reconciler's loop over the new entries:
"if the key is absent, append the entry at the end, preserving arrival
order among new entries; if the key is already present, the existing
entry's block is left unchanged". -/
def addNewEntries : List BibtexEntry → List BibtexEntry → List BibtexEntry
  | current, [] => current
  | current, e :: rest =>
    if containsKey current e.key then addNewEntries current rest
    else addNewEntries (current ++ [e]) rest

/-- Modelled from the spec: `merge(existing_file_content, new_entries)` of
the Bibtex Reconciler (notion_scholar/run.py, not under src), acting on
parsed entry blocks: parse the existing content into an ordered
first-occurrence-wins mapping, then fold the new entries under the
skip-on-conflict policy.  Re-serialization joins the resulting blocks with
a single blank line. -/
def merge (F E : List BibtexEntry) : List BibtexEntry :=
  addNewEntries (dedupByKey F) E

theorem containsKey_eq_isSome (l : List BibtexEntry) (k : String) :
    containsKey l k = (lookupKey l k).isSome := by
  induction l with
  | nil => rfl
  | cons e rest ih =>
    cases h : (e.key == k) with
    | true => simp [containsKey, lookupKey, List.find?_cons, h]
    | false =>
      simpa [containsKey, lookupKey, List.find?_cons, h] using ih

theorem find?_filter_of_imp (p q : BibtexEntry → Bool)
    (hpq : ∀ x, p x = true → q x = true) (l : List BibtexEntry) :
    (l.filter q).find? p = l.find? p := by
  induction l with
  | nil => rfl
  | cons x rest ih =>
    cases hq : q x with
    | true =>
      cases hp : p x with
      | true => simp [List.filter_cons, hq, List.find?_cons, hp]
      | false => simpa [List.filter_cons, hq, List.find?_cons, hp] using ih
    | false =>
      have hp : p x = false := by
        cases hpx : p x with
        | true => exact absurd (hpq x hpx) (by simp [hq])
        | false => rfl
      simpa [List.filter_cons, hq, List.find?_cons, hp] using ih

/-- Citation keys of an entry list, in order. -/
def keysOf (l : List BibtexEntry) : List String := l.map (fun e => e.key)

theorem lookupKey_dedupByKey (F : List BibtexEntry) (k : String) :
    lookupKey (dedupByKey F) k = lookupKey F k := by
  induction F using dedupByKey.induct with
  | case1 => rw [dedupByKey]
  | case2 e rest ih =>
    cases h : (e.key == k) with
    | true => simp [dedupByKey, lookupKey, List.find?_cons, h]
    | false =>
      have hk : ∀ x : BibtexEntry,
          (x.key == k) = true → (!(x.key == e.key)) = true := by
        intro x hx
        have hxk : x.key = k := by simpa using hx
        have hek : ¬ e.key = k := by simpa using h
        simp only [Bool.not_eq_true', beq_eq_false_iff_ne, ne_eq, hxk]
        intro hc
        exact hek hc.symm
      calc lookupKey (dedupByKey (e :: rest)) k
          = lookupKey (dedupByKey (rest.filter (fun x => !(x.key == e.key)))) k := by
            simp [dedupByKey, lookupKey, List.find?_cons, h]
        _ = lookupKey (rest.filter (fun x => !(x.key == e.key))) k := ih
        _ = lookupKey rest k := find?_filter_of_imp _ _ hk rest
        _ = lookupKey (e :: rest) k := by
            simp [lookupKey, List.find?_cons, h]

theorem subset_dedupByKey (F : List BibtexEntry) :
    ∀ x, x ∈ dedupByKey F → x ∈ F := by
  induction F using dedupByKey.induct with
  | case1 =>
    intro x hx
    rw [dedupByKey] at hx
    exact absurd hx (List.not_mem_nil x)
  | case2 e rest ih =>
    intro x hx
    rw [dedupByKey] at hx
    rcases List.mem_cons.1 hx with h | h
    · exact h ▸ List.mem_cons_self _ _
    · exact List.mem_cons_of_mem _ (List.mem_of_mem_filter (ih x h))

theorem nodup_keys_dedupByKey (F : List BibtexEntry) :
    (keysOf (dedupByKey F)).Nodup := by
  induction F using dedupByKey.induct with
  | case1 => simp [dedupByKey, keysOf]
  | case2 e rest ih =>
    rw [dedupByKey]
    simp only [keysOf, List.map_cons, List.nodup_cons]
    refine ⟨?_, ih⟩
    intro hmem
    rcases List.mem_map.1 hmem with ⟨x, hx, hkey⟩
    have hxr : x ∈ rest.filter (fun x => !(x.key == e.key)) :=
      subset_dedupByKey _ x hx
    have hflt : (!(x.key == e.key)) = true := (List.mem_filter.1 hxr).2
    simp [hkey] at hflt

theorem dedupByKey_eq_self (F : List BibtexEntry) :
    (keysOf F).Nodup → dedupByKey F = F := by
  induction F using dedupByKey.induct with
  | case1 => intro _; rw [dedupByKey]
  | case2 e rest ih =>
    intro h
    simp only [keysOf, List.map_cons, List.nodup_cons] at h
    obtain ⟨hnotin, hrest⟩ := h
    have hfilter : rest.filter (fun x => !(x.key == e.key)) = rest := by
      rw [List.filter_eq_self]
      intro x hx
      simp only [Bool.not_eq_true', beq_eq_false_iff_ne, ne_eq]
      intro hc
      exact hnotin (List.mem_map.2 ⟨x, hx, hc⟩)
    rw [hfilter] at ih
    rw [dedupByKey, hfilter, ih hrest]

theorem containsKey_append (l1 l2 : List BibtexEntry) (k : String) :
    containsKey (l1 ++ l2) k = (containsKey l1 k || containsKey l2 k) := by
  simp [containsKey, List.any_append]

theorem lookupKey_append_left (l1 l2 : List BibtexEntry) (k : String)
    (h : containsKey l1 k = true) :
    lookupKey (l1 ++ l2) k = lookupKey l1 k := by
  induction l1 with
  | nil => simp [containsKey] at h
  | cons e rest ih =>
    cases he : (e.key == k) with
    | true => simp [lookupKey, List.find?_cons, he]
    | false =>
      have h' : containsKey rest k = true := by
        simpa [containsKey, he] using h
      simpa [lookupKey, List.find?_cons, he] using ih h'

theorem containsKey_addNewEntries_mono (E : List BibtexEntry) :
    ∀ current k, containsKey current k = true →
      containsKey (addNewEntries current E) k = true := by
  induction E with
  | nil =>
    intro current k h
    simpa [addNewEntries] using h
  | cons x rest ih =>
    intro current k h
    rw [addNewEntries]
    cases hc : containsKey current x.key with
    | true =>
      simp only [hc, if_true]
      exact ih current k h
    | false =>
      simp only [hc, Bool.false_eq_true, if_false]
      refine ih (current ++ [x]) k ?_
      rw [containsKey_append, h, Bool.true_or]

theorem containsKey_addNewEntries_of_mem (E : List BibtexEntry) :
    ∀ current e, e ∈ E → containsKey (addNewEntries current E) e.key = true := by
  induction E with
  | nil =>
    intro current e he
    exact absurd he (List.not_mem_nil e)
  | cons x rest ih =>
    intro current e he
    rw [addNewEntries]
    cases hc : containsKey current x.key with
    | true =>
      simp only [hc, if_true]
      rcases List.mem_cons.1 he with h | h
      · subst h
        exact containsKey_addNewEntries_mono rest current e.key hc
      · exact ih current e h
    | false =>
      simp only [hc, Bool.false_eq_true, if_false]
      rcases List.mem_cons.1 he with h | h
      · subst h
        refine containsKey_addNewEntries_mono rest (current ++ [e]) e.key ?_
        rw [containsKey_append]
        simp [containsKey]
      · exact ih (current ++ [x]) e h

theorem addNewEntries_eq_self (E : List BibtexEntry) :
    ∀ current, (∀ e ∈ E, containsKey current e.key = true) →
      addNewEntries current E = current := by
  induction E with
  | nil => intro current _; rfl
  | cons x rest ih =>
    intro current h
    have hx := h x (List.mem_cons_self _ _)
    rw [addNewEntries]
    simp only [hx, if_true]
    exact ih current (fun e he => h e (List.mem_cons_of_mem _ he))

theorem nodup_keys_addNewEntries (E : List BibtexEntry) :
    ∀ current, (keysOf current).Nodup →
      (keysOf (addNewEntries current E)).Nodup := by
  induction E with
  | nil => intro current h; exact h
  | cons x rest ih =>
    intro current h
    rw [addNewEntries]
    cases hc : containsKey current x.key with
    | true =>
      simp only [hc, if_true]
      exact ih current h
    | false =>
      simp only [hc, Bool.false_eq_true, if_false]
      refine ih (current ++ [x]) ?_
      simp only [keysOf, List.map_append, List.map_cons, List.map_nil]
      rw [List.nodup_append]
      refine ⟨h, List.nodup_singleton _, ?_⟩
      intro a ha hb
      simp only [List.mem_singleton] at hb
      subst hb
      rcases List.mem_map.1 ha with ⟨y, hy, hyk⟩
      have hcy : containsKey current x.key = true := by
        rw [containsKey, List.any_eq_true]
        exact ⟨y, hy, by simp [hyk]⟩
      simp [hcy] at hc

theorem lookupKey_addNewEntries (E : List BibtexEntry) :
    ∀ current k, containsKey current k = true →
      lookupKey (addNewEntries current E) k = lookupKey current k := by
  induction E with
  | nil => intro current k _; rfl
  | cons x rest ih =>
    intro current k h
    rw [addNewEntries]
    cases hc : containsKey current x.key with
    | true =>
      simp only [hc, if_true]
      exact ih current k h
    | false =>
      simp only [hc, Bool.false_eq_true, if_false]
      rw [ih (current ++ [x]) k (by rw [containsKey_append, h, Bool.true_or])]
      exact lookupKey_append_left current [x] k h

/-- C5: when a citation key occurs both in the existing file and among the
new entries, the merged result keeps the existing file's entry for that key
unchanged — the skip-on-conflict policy of the Reconciler. -/
theorem merge_keeps_existing_entry_on_conflict (F E : List BibtexEntry)
    (k : String) (h : containsKey F k = true) :
    lookupKey (merge F E) k = lookupKey F k := by
  have hd : containsKey (dedupByKey F) k = true := by
    rw [containsKey_eq_isSome, lookupKey_dedupByKey, ← containsKey_eq_isSome]
    exact h
  rw [merge, lookupKey_addNewEntries E (dedupByKey F) k hd,
    lookupKey_dedupByKey]

/-- Witness for C5 at the spec's own scenario: F holds smith2020 with one
body, E offers a different body for smith2020; the merge keeps F's entry
and not E's. -/
theorem merge_keeps_existing_entry_on_conflict_witness :
    containsKey [⟨"smith2020", "A"⟩] "smith2020" = true ∧
    lookupKey (merge [⟨"smith2020", "A"⟩]
        [⟨"smith2020", "B"⟩, ⟨"doe2021", "C"⟩]) "smith2020" =
      lookupKey [⟨"smith2020", "A"⟩] "smith2020" ∧
    lookupKey [(⟨"smith2020", "A"⟩ : BibtexEntry)] "smith2020" =
      some ⟨"smith2020", "A"⟩ ∧
    some (⟨"smith2020", "A"⟩ : BibtexEntry) ≠ some ⟨"smith2020", "B"⟩ :=
  ⟨by decide,
   merge_keeps_existing_entry_on_conflict [⟨"smith2020", "A"⟩]
     [⟨"smith2020", "B"⟩, ⟨"doe2021", "C"⟩] "smith2020" (by decide),
   by decide, by decide⟩

/-- C6: merging the same new entries a second time changes nothing — the
Reconciler's merge is idempotent in its second argument. -/
theorem merge_idempotent_in_new_entries (F E : List BibtexEntry) :
    merge (merge F E) E = merge F E := by
  have hnd : (keysOf (merge F E)).Nodup :=
    nodup_keys_addNewEntries E (dedupByKey F) (nodup_keys_dedupByKey F)
  have hded : dedupByKey (merge F E) = merge F E := dedupByKey_eq_self _ hnd
  have hcov : ∀ e ∈ E, containsKey (merge F E) e.key = true :=
    fun e he => containsKey_addNewEntries_of_mem E (dedupByKey F) e he
  calc merge (merge F E) E
      = addNewEntries (merge F E) E := by rw [merge, hded]
    _ = merge F E := addNewEntries_eq_self E (merge F E) hcov

theorem run_eq_error_token (storedToken : Option String) (config : Config)
    (args : RunArgs) (h : fallback args.token storedToken = none) :
    sanitize_arguments_and_run storedToken config args =
      .error ⟨"The Notion token is not set nor saved."⟩ := by
  unfold sanitize_arguments_and_run
  rw [h]

theorem run_eq_error_db (storedToken : Option String) (config : Config)
    (args : RunArgs) (t : String)
    (ht : fallback args.token storedToken = some t)
    (hd : fallback args.database_id config.database_id = none) :
    sanitize_arguments_and_run storedToken config args =
      .error ⟨"The database_id is not set nor saved."⟩ := by
  unfold sanitize_arguments_and_run
  rw [ht, hd]

theorem run_eq_ok (storedToken : Option String) (config : Config)
    (args : RunArgs) (t d : String)
    (ht : fallback args.token storedToken = some t)
    (hd : fallback args.database_id config.database_id = some d) :
    sanitize_arguments_and_run storedToken config args =
      .ok ⟨t, d, args.bib_string,
        fallback args.bib_file_path config.bib_file_path,
        fallbackD args.save
          ((fallbackD config.save_to_bib_file "True") == "True")⟩ := by
  unfold sanitize_arguments_and_run
  rw [ht, hd]

theorem download_eq_error_token (storedToken : Option String)
    (config : Config) (fetch : String → String → List String)
    (args : DownloadArgs) (h : fallback args.token storedToken = none) :
    sanitize_arguments_and_download storedToken config fetch args =
      .error ⟨"The Notion token is not set nor saved."⟩ := by
  unfold sanitize_arguments_and_download
  rw [h]

theorem download_eq_error_db (storedToken : Option String)
    (config : Config) (fetch : String → String → List String)
    (args : DownloadArgs) (t : String)
    (ht : fallback args.token storedToken = some t)
    (hd : fallback args.database_id config.database_id = none) :
    sanitize_arguments_and_download storedToken config fetch args =
      .error ⟨"The database_id is not set nor saved."⟩ := by
  unfold sanitize_arguments_and_download
  rw [ht, hd]

theorem download_eq_ok (storedToken : Option String)
    (config : Config) (fetch : String → String → List String)
    (args : DownloadArgs) (t d : String)
    (ht : fallback args.token storedToken = some t)
    (hd : fallback args.database_id config.database_id = some d) :
    sanitize_arguments_and_download storedToken config fetch args =
      .ok ⟨args.file_path, String.intercalate "\n\n" (fetch t d)⟩ := by
  unfold sanitize_arguments_and_download
  rw [ht, hd]

/-- C1: the save flag of the run command is resolved by the uniform rule
of main.py lines 149-150: an explicitly supplied save value wins;
otherwise the stored save_to_bib_file value is used (stored boolean true
being the string "True"); otherwise the hardcoded default true.  In
particular a stored true with no explicit save argument yields true. -/
theorem run_save_flag_resolution (storedToken : Option String)
    (config : Config) (args : RunArgs) (call : RunCall)
    (h : sanitize_arguments_and_run storedToken config args = .ok call) :
    (∀ b, args.save = some b → call.save_to_bib_file = b) ∧
    (args.save = none →
      call.save_to_bib_file =
        ((fallbackD config.save_to_bib_file "True") == "True")) ∧
    (args.save = none → config.save_to_bib_file = some "True" →
      call.save_to_bib_file = true) ∧
    (args.save = none → config.save_to_bib_file = none →
      call.save_to_bib_file = true) := by
  cases ht : fallback args.token storedToken with
  | none =>
    rw [run_eq_error_token _ _ _ ht] at h
    exact absurd h (by simp)
  | some t =>
    cases hd : fallback args.database_id config.database_id with
    | none =>
      rw [run_eq_error_db _ _ _ t ht hd] at h
      exact absurd h (by simp)
    | some d =>
      rw [run_eq_ok _ _ _ t d ht hd] at h
      have hc := Except.ok.inj h
      subst hc
      refine ⟨?_, ?_, ?_, ?_⟩
      · intro b hb
        simp [hb, fallbackD]
      · intro hs
        simp [hs, fallbackD]
      · intro hs hcfg
        simp [hs, hcfg, fallbackD]
      · intro hs hcfg
        simp [hs, hcfg, fallbackD]

/-- Witness for C1: with a stored save flag "True" and no explicit save
argument, the run command proceeds with save_to_bib_file = true. -/
theorem run_save_flag_resolution_witness :
    sanitize_arguments_and_run (some "tok") ⟨some "db", none, some "True"⟩
        ⟨none, none, none, none, none⟩ =
      .ok ⟨"tok", "db", none, none, true⟩ ∧
    (⟨"tok", "db", none, none, true⟩ : RunCall).save_to_bib_file = true :=
  ⟨rfl,
   (run_save_flag_resolution (some "tok") ⟨some "db", none, some "True"⟩
      ⟨none, none, none, none, none⟩ ⟨"tok", "db", none, none, true⟩
      rfl).2.2.1 rfl rfl⟩

/-- C2: an explicitly passed token wins over any stored token; when
neither is available the run dispatcher raises the ConfigError whose
message mentions the token, before run (and hence any network call) is
ever invoked. -/
theorem run_token_resolution (storedToken : Option String) (config : Config)
    (args : RunArgs) :
    (args.token = none → storedToken = none →
      sanitize_arguments_and_run storedToken config args =
        .error ⟨"The Notion token is not set nor saved."⟩ ∧
      strContains "The Notion token is not set nor saved." "token" = true) ∧
    (∀ t call, args.token = some t →
      sanitize_arguments_and_run storedToken config args = .ok call →
      call.token = t) := by
  constructor
  · intro h1 h2
    refine ⟨?_, by decide⟩
    apply run_eq_error_token
    rw [h1, h2]
    rfl
  · intro t call h1 h
    cases hd : fallback args.database_id config.database_id with
    | none =>
      rw [run_eq_error_db _ _ _ t (by rw [h1]; rfl) hd] at h
      exact absurd h (by simp)
    | some d =>
      rw [run_eq_ok _ _ _ t d (by rw [h1]; rfl) hd] at h
      rw [← Except.ok.inj h]

/-- Witness for C2: no token stored and none passed yields the token
ConfigError; a passed token "fresh" is used even though "stale" is
stored. -/
theorem run_token_resolution_witness :
    sanitize_arguments_and_run none ⟨some "db", none, none⟩
        ⟨none, none, none, some "@article", none⟩ =
      .error ⟨"The Notion token is not set nor saved."⟩ ∧
    (⟨"fresh", "db", none, none, true⟩ : RunCall).token = "fresh" :=
  ⟨((run_token_resolution none ⟨some "db", none, none⟩
      ⟨none, none, none, some "@article", none⟩).1 rfl rfl).1,
   (run_token_resolution (some "stale") ⟨some "db", none, none⟩
      ⟨some "fresh", none, none, none, none⟩).2 "fresh"
      ⟨"fresh", "db", none, none, true⟩ rfl rfl⟩

/-- C3 counterexample: with the database id absent (neither passed nor
stored) and the token also absent, both run and download fail with the
token ConfigError, whose message does not name database_id — so the claim
as universally stated fails at this input. -/
theorem db_missing_error_counterexample :
    sanitize_arguments_and_run none ⟨none, none, none⟩
        ⟨none, none, none, none, none⟩ =
      .error ⟨"The Notion token is not set nor saved."⟩ ∧
    sanitize_arguments_and_download none ⟨none, none, none⟩
        (fun _ _ => []) ⟨"out.bib", none, none⟩ =
      .error ⟨"The Notion token is not set nor saved."⟩ ∧
    strContains "The Notion token is not set nor saved." "database_id" =
      false :=
  ⟨rfl, rfl, by decide⟩

/-- C3 (amended): for run and download, when the token resolves but no
database id is passed and none is stored, the command fails with the
ConfigError naming database_id, and the functions return that error
outright (nothing is retried). -/
theorem db_missing_error_names_database_id (storedToken : Option String)
    (config : Config) (runArgs : RunArgs) (dlArgs : DownloadArgs)
    (fetch : String → String → List String) (tr td : String)
    (hr : fallback runArgs.token storedToken = some tr)
    (hdl : fallback dlArgs.token storedToken = some td)
    (h1 : runArgs.database_id = none) (h2 : config.database_id = none)
    (h3 : dlArgs.database_id = none) :
    sanitize_arguments_and_run storedToken config runArgs =
      .error ⟨"The database_id is not set nor saved."⟩ ∧
    sanitize_arguments_and_download storedToken config fetch dlArgs =
      .error ⟨"The database_id is not set nor saved."⟩ ∧
    strContains "The database_id is not set nor saved." "database_id" =
      true :=
  ⟨run_eq_error_db _ _ _ tr hr (by rw [h1, h2]; rfl),
   download_eq_error_db _ _ _ _ td hdl (by rw [h3, h2]; rfl),
   by decide⟩

/-- Witness for C3 (amended): token "tok" passed, nothing stored, no
database id anywhere: both commands return the database_id ConfigError. -/
theorem db_missing_error_names_database_id_witness :
    sanitize_arguments_and_run none ⟨none, none, none⟩
        ⟨some "tok", none, none, none, none⟩ =
      .error ⟨"The database_id is not set nor saved."⟩ ∧
    sanitize_arguments_and_download none ⟨none, none, none⟩
        (fun _ _ => ["@x"]) ⟨"out.bib", some "tok", none⟩ =
      .error ⟨"The database_id is not set nor saved."⟩ :=
  ⟨(db_missing_error_names_database_id none ⟨none, none, none⟩
      ⟨some "tok", none, none, none, none⟩ ⟨"out.bib", some "tok", none⟩
      (fun _ _ => ["@x"]) "tok" "tok" rfl rfl rfl rfl rfl).1,
   (db_missing_error_names_database_id none ⟨none, none, none⟩
      ⟨some "tok", none, none, none, none⟩ ⟨"out.bib", some "tok", none⟩
      (fun _ _ => ["@x"]) "tok" "tok" rfl rfl rfl rfl rfl).2.1⟩

/-- C10: with both the token and the database id absent everywhere, run
and download raise the token ConfigError: token resolution is checked
strictly before database_id resolution, and the message names the token
and not the database_id. -/
theorem token_error_precedes_database_id_error (storedToken : Option String)
    (config : Config) (runArgs : RunArgs) (dlArgs : DownloadArgs)
    (fetch : String → String → List String)
    (h1 : runArgs.token = none) (h2 : storedToken = none)
    (h3 : dlArgs.token = none) (_h4 : runArgs.database_id = none)
    (_h5 : config.database_id = none) (_h6 : dlArgs.database_id = none) :
    sanitize_arguments_and_run storedToken config runArgs =
      .error ⟨"The Notion token is not set nor saved."⟩ ∧
    sanitize_arguments_and_download storedToken config fetch dlArgs =
      .error ⟨"The Notion token is not set nor saved."⟩ ∧
    strContains "The Notion token is not set nor saved." "token" = true ∧
    strContains "The Notion token is not set nor saved." "database_id" =
      false :=
  ⟨run_eq_error_token _ _ _ (by rw [h1, h2]; rfl),
   download_eq_error_token _ _ _ _ (by rw [h3, h2]; rfl),
   by decide, by decide⟩

/-- Witness for C10 at the fully empty input. -/
theorem token_error_precedes_database_id_error_witness :
    sanitize_arguments_and_run none ⟨none, none, none⟩
        ⟨none, none, none, none, none⟩ =
      .error ⟨"The Notion token is not set nor saved."⟩ ∧
    sanitize_arguments_and_download none ⟨none, none, none⟩
        (fun _ _ => []) ⟨"out.bib", none, none⟩ =
      .error ⟨"The Notion token is not set nor saved."⟩ :=
  ⟨(token_error_precedes_database_id_error none ⟨none, none, none⟩
      ⟨none, none, none, none, none⟩ ⟨"out.bib", none, none⟩
      (fun _ _ => []) rfl rfl rfl rfl rfl rfl).1,
   (token_error_precedes_database_id_error none ⟨none, none, none⟩
      ⟨none, none, none, none, none⟩ ⟨"out.bib", none, none⟩
      (fun _ _ => []) rfl rfl rfl rfl rfl rfl).2.1⟩

/-- C7: a successful download writes to the given output path exactly the
fetched bibtex-entry strings, verbatim and in the order the remote client
returned them, joined by one blank line (main.py line 183). -/
theorem download_writes_entries_verbatim (storedToken : Option String)
    (config : Config) (fetch : String → String → List String)
    (args : DownloadArgs) (t d : String)
    (ht : fallback args.token storedToken = some t)
    (hd : fallback args.database_id config.database_id = some d) :
    sanitize_arguments_and_download storedToken config fetch args =
      .ok ⟨args.file_path, String.intercalate "\n\n" (fetch t d)⟩ := by
  unfold sanitize_arguments_and_download
  rw [ht, hd]

/-- Witness for C7: two fetched entries end up in the output file joined
by a single blank line, in fetch order. -/
theorem download_writes_entries_verbatim_witness :
    sanitize_arguments_and_download (some "tok") ⟨some "db", none, none⟩
        (fun _ _ => ["@article{a,}", "@book{b,}"]) ⟨"out.bib", none, none⟩ =
      .ok ⟨"out.bib", "@article{a,}\n\n@book{b,}"⟩ := by
  have h := download_writes_entries_verbatim (some "tok")
    ⟨some "db", none, none⟩ (fun _ _ => ["@article{a,}", "@book{b,}"])
    ⟨"out.bib", none, none⟩ "tok" "db" rfl rfl
  rw [h]
  rfl

/-- C8: when token or database_id resolution fails for download, the same
ConfigError is returned no matter what the remote fetch would produce —
the fetch is never consulted — and the error result carries no file
write. -/
theorem download_config_error_precedes_fetch (storedToken : Option String)
    (config : Config) (args : DownloadArgs)
    (h : fallback args.token storedToken = none ∨
      fallback args.database_id config.database_id = none) :
    ∃ e : ConfigError,
      ∀ fetch : String → String → List String,
        sanitize_arguments_and_download storedToken config fetch args =
          .error e := by
  cases h with
  | inl ht =>
    exact ⟨_, fun fetch => download_eq_error_token _ _ fetch _ ht⟩
  | inr hd =>
    cases ht : fallback args.token storedToken with
    | none =>
      exact ⟨_, fun fetch => download_eq_error_token _ _ fetch _ ht⟩
    | some t =>
      exact ⟨_, fun fetch => download_eq_error_db _ _ fetch _ t ht hd⟩

/-- Witness for C8: with no database id anywhere, two different fetch
functions give the identical error outcome, so no fetch happened and
nothing was written. -/
theorem download_config_error_precedes_fetch_witness :
    sanitize_arguments_and_download (some "tok") ⟨none, none, none⟩
        (fun _ _ => ["@x"]) ⟨"out.bib", none, none⟩ =
      sanitize_arguments_and_download (some "tok") ⟨none, none, none⟩
        (fun _ _ => ["@y", "@z"]) ⟨"out.bib", none, none⟩ := by
  obtain ⟨e, he⟩ := download_config_error_precedes_fetch (some "tok")
    ⟨none, none, none⟩ ⟨"out.bib", none, none⟩ (Or.inr rfl)
  rw [he (fun _ _ => ["@x"]), he (fun _ _ => ["@y", "@z"])]

/-- C4: when the config stores no bib file path, the run command with
neither a bib-file-path nor a bib-string is rejected by argparse as a
usage error before the dispatcher (and hence any network call) runs, and
supplying both flags at once is likewise rejected: the two are mutually
exclusive (main.py lines 52-65). -/
theorem run_missing_destination_usage_error (storedToken : Option String)
    (config : Config) (args : RunCliArgs)
    (hcfg : config.bib_file_path = none) :
    (args.bib_file_path = none → args.bib_string = none →
      mainRunMode storedToken config args = .usage) ∧
    (∀ f s, args.bib_file_path = some f → args.bib_string = some s →
      mainRunMode storedToken config args = .usage) := by
  constructor
  · intro h1 h2
    simp [mainRunMode, runParserAccepts, hcfg, h1, h2]
  · intro f s h1 h2
    simp [mainRunMode, runParserAccepts, hcfg, h1, h2]

/-- Witness for C4: with no configured bib file path, omitting both flags
is a usage error, and passing both flags is a usage error. -/
theorem run_missing_destination_usage_error_witness :
    mainRunMode (some "tok") ⟨some "db", none, none⟩
      ⟨none, none, none, none⟩ = .usage ∧
    mainRunMode (some "tok") ⟨some "db", none, none⟩
      ⟨none, none, some "f.bib", some "@article{a,}"⟩ = .usage :=
  ⟨(run_missing_destination_usage_error (some "tok") ⟨some "db", none, none⟩
      ⟨none, none, none, none⟩ rfl).1 rfl rfl,
   (run_missing_destination_usage_error (some "tok") ⟨some "db", none, none⟩
      ⟨none, none, some "f.bib", some "@article{a,}"⟩ rfl).2
      "f.bib" "@article{a,}" rfl rfl⟩

/-- C9: the download command always demands an explicit output file path:
without one, argparse rejects the invocation as a usage error, whatever
token, database id or configured bib file path exist (main.py line 112). -/
theorem download_requires_explicit_file_path (storedToken : Option String)
    (config : Config) (fetch : String → String → List String)
    (args : DownloadCliArgs) (h : args.file_path = none) :
    mainDownloadMode storedToken config fetch args = .usage := by
  simp [mainDownloadMode, downloadParserAccepts, h]

/-- Witness for C9: even with a configured bib file path and every other
argument supplied, download without a file path is a usage error. -/
theorem download_requires_explicit_file_path_witness :
    mainDownloadMode (some "tok") ⟨some "db", some "/home/u/ref.bib", some "True"⟩
      (fun _ _ => ["@x"]) ⟨none, some "tok2", some "db2"⟩ = .usage :=
  download_requires_explicit_file_path (some "tok")
    ⟨some "db", some "/home/u/ref.bib", some "True"⟩
    (fun _ _ => ["@x"]) ⟨none, some "tok2", some "db2"⟩ rfl
